import Mathlib

set_option autoImplicit false

namespace Sublab

/-! Shallow embedding of the Sublab voice-provider orchestration layer.

The repository ships a React frontend (under src/frontend) and, per its
README, a FastAPI backend that is not part of the provided sources.
Frontend behaviour (recorder gating, playback, chat send guard, panel
handlers) is embedded directly from the TypeScript sources.  Backend
behaviour (engine selection, fallback, clone fan-out, registry, API-key
store) is modelled from the specification, as marked on each definition. -/

/-! ## Engines and error taxonomy -/

/-- The two speech engines: XTTS/Kokoro on device (LOCAL) and Fish Audio (CLOUD). -/
inductive Engine where
  | LOCAL
  | CLOUD
  deriving DecidableEq, Repr

/-- Synthesis-path failure kinds from the error taxonomy. -/
inductive SynthErr where
  | EngineUnavailable
  | NotConfigured
  | SynthesisError
  | InvalidVoiceReference
  deriving DecidableEq, Repr

/-- Clone-path failure kinds from the error taxonomy. -/
inductive CloneErr where
  | EngineUnavailable
  | BackendRejected
  deriving DecidableEq, Repr

/-! ## Synthesis orchestration (modelled from the spec) -/

/-- Modelled from the spec: the backend Provider Orchestrator (FastAPI
`tts_manager`, not under the provided sources) triggers a fallback hop on
`EngineUnavailable`, `NotConfigured` or `SynthesisError`; an
`InvalidVoiceReference` is surfaced to the caller and not retried. -/
def isFallbackTrigger : SynthErr → Bool
  | .EngineUnavailable => true
  | .NotConfigured => true
  | .SynthesisError => true
  | .InvalidVoiceReference => false

/-- Outcome of one synthesis request as returned to the caller. -/
inductive SynthOutcome where
  | done (engineUsed : Engine) (audio : List Nat)
  | surfaced (e : SynthErr)
  | synthesisFailed (primaryErr secondaryErr : SynthErr)
  deriving DecidableEq, Repr

/-- Modelled from the spec: the backend synthesis state machine
SELECT, ATTEMPT_PRIMARY, then DONE or ATTEMPT_FALLBACK, then DONE or
FAILED.  The adapter argument abstracts both Speech Engine Adapters; the
second component of the result is the trace of adapter invocations in
order.  A triggering primary failure leads to exactly one call on the
secondary engine; its success is returned as DONE, its failure as the
aggregate `synthesisFailed` carrying both error details. -/
def orchestrateSynthesis (adapter : Engine → Except SynthErr (List Nat))
    (primary secondary : Engine) : SynthOutcome × List Engine :=
  match adapter primary with
  | .ok audio => (.done primary audio, [primary])
  | .error e =>
    if isFallbackTrigger e then
      match adapter secondary with
      | .ok audio => (.done secondary audio, [primary, secondary])
      | .error e2 => (.synthesisFailed e e2, [primary, secondary])
    else
      (.surfaced e, [primary])

/-- Modelled from the spec: engine resolution in SELECT.  An explicit
request parameter wins; otherwise the policy default is CLOUD-first with
LOCAL fallback (the frontend api.ts documents the backend as "Fish first,
XTTS fallback").  The result is the (primary, secondary) pair. -/
def resolveEngines : Option Engine → Engine × Engine
  | some Engine.LOCAL => (Engine.LOCAL, Engine.CLOUD)
  | some Engine.CLOUD => (Engine.CLOUD, Engine.LOCAL)
  | none => (Engine.CLOUD, Engine.LOCAL)

/-- Fixture adapter used by concrete instantiations: the cloud engine is
unreachable, the local engine produces a one-byte payload. -/
def adapterCloudDown : Engine → Except SynthErr (List Nat)
  | Engine.CLOUD => .error SynthErr.EngineUnavailable
  | Engine.LOCAL => .ok [7]

/-! ## Voice registry (modelled from the spec) -/

/-- Status of one per-engine cloned-voice reference. -/
inductive RefStatus where
  | PENDING
  | READY
  | FAILED
  deriving DecidableEq, Repr

/-- One EngineVoiceReference row: the engine handle, the status and the
optional error detail. -/
structure RefState where
  engineHandle : Option String
  status : RefStatus
  errorDetail : Option CloneErr
  deriving DecidableEq, Repr

/-- Modelled from the spec: the backend Voice Registry (not under the
provided sources): a durable mapping from voice identity and engine to at
most one EngineVoiceReference, the set of existing identities, and the
DefaultVoicePointer singleton. -/
structure Registry where
  refs : String → Engine → Option RefState
  voiceIdentityExists : String → Bool
  defaultVoice : Option String

/-- Registry lookup error kinds. -/
inductive RegErr where
  | UnknownVoice
  deriving DecidableEq, Repr

/-- Modelled from the spec: `get_reference(voice_id, engine)`. -/
def Registry.get_reference (r : Registry) (vid : String) (eng : Engine) :
    Option RefState :=
  r.refs vid eng

/-- Modelled from the spec: `upsert_reference(voice_id, engine, handle)`
creates the VoiceIdentity if absent and sets status READY. -/
def Registry.upsert_reference (r : Registry) (vid : String) (eng : Engine)
    (handle : String) : Registry :=
  { r with
    refs := fun v e =>
      if v = vid ∧ e = eng then some ⟨some handle, .READY, none⟩ else r.refs v e,
    voiceIdentityExists := fun v => if v = vid then true else r.voiceIdentityExists v }

/-- Modelled from the spec: `mark_failed(voice_id, engine, error)` sets
status FAILED with detail and does not remove the identity (the failure
record is kept under the identity). -/
def Registry.mark_failed (r : Registry) (vid : String) (eng : Engine)
    (e : CloneErr) : Registry :=
  { r with
    refs := fun v en =>
      if v = vid ∧ en = eng then some ⟨none, .FAILED, some e⟩ else r.refs v en,
    voiceIdentityExists := fun v => if v = vid then true else r.voiceIdentityExists v }

/-- Modelled from the spec: `set_default(voice_id)` fails with
`UnknownVoice` if the identity does not exist, otherwise moves the
DefaultVoicePointer. -/
def Registry.set_default (r : Registry) (vid : String) :
    Except RegErr Registry :=
  if r.voiceIdentityExists vid then .ok { r with defaultVoice := some vid }
  else .error RegErr.UnknownVoice

/-- State of the registry after a set-default request as seen by later
reads: on failure the previous registry (hence the previous
DefaultVoicePointer) persists untouched. -/
def applySetDefault (r : Registry) (vid : String) : Registry :=
  match r.set_default vid with
  | .ok r2 => r2
  | .error _ => r

/-- Fixture: the empty registry with no identities and no default voice. -/
def regEmpty : Registry :=
  ⟨fun _ _ => none, fun _ => false, none⟩

/-! ## Clone orchestration (modelled from the spec) -/

/-- An input audio sample for cloning: its duration in whole seconds and
its bytes. -/
structure CloneSample where
  durationSeconds : Nat
  bytes : List Nat
  deriving DecidableEq, Repr

/-- The hard minimum sample duration for cloning, in seconds (the recorder
submit gate in VoiceRecorder.tsx uses the same 3-second floor). -/
def MIN_CLONE_SECONDS : Nat := 3

/-- Result of one clone call: rejected input, a per-engine report with at
least one success, or the aggregate failure carrying both error details. -/
inductive CloneCallResult where
  | sampleTooShort
  | report (localResult cloudResult : Except CloneErr String)
  | cloneFailed (localErr cloudErr : CloneErr)
  deriving Repr

/-- Modelled from the spec: the backend cloning path (not under the
provided sources).  The sample is validated first (empty or shorter than
the 3-second hard floor is rejected with SampleTooShort before either
adapter runs); otherwise both adapters are invoked independently, each
success is upserted and each failure marked in the registry, and a
per-engine report is returned; the aggregate `cloneFailed` is returned
only when both engines failed.  The third result component is the trace
of adapter invocations. -/
def orchestrateClone (localAdapter cloudAdapter : CloneSample → Except CloneErr String)
    (reg : Registry) (vid : String) (sample : CloneSample) :
    CloneCallResult × Registry × List Engine :=
  if sample.bytes.isEmpty ∨ sample.durationSeconds < MIN_CLONE_SECONDS then
    (.sampleTooShort, reg, [])
  else
    let lr := localAdapter sample
    let cr := cloudAdapter sample
    let reg1 := match lr with
      | .ok h => reg.upsert_reference vid Engine.LOCAL h
      | .error e => reg.mark_failed vid Engine.LOCAL e
    let reg2 := match cr with
      | .ok h => reg1.upsert_reference vid Engine.CLOUD h
      | .error e => reg1.mark_failed vid Engine.CLOUD e
    match lr, cr with
    | .error le, .error ce => (.cloneFailed le ce, reg2, [Engine.LOCAL, Engine.CLOUD])
    | _, _ => (.report lr cr, reg2, [Engine.LOCAL, Engine.CLOUD])

/-- Fixture clone adapter that always succeeds with a fixed handle. -/
def cloneOk : CloneSample → Except CloneErr String :=
  fun _ => .ok "handle-1"

/-- Fixture clone adapter that always reports the backend unreachable. -/
def cloneDown : CloneSample → Except CloneErr String :=
  fun _ => .error CloneErr.EngineUnavailable

/-! ## Cloud credential store (modelled from the spec) -/

/-- Modelled from the spec: the backend Cloud adapter credential slot (not
under the provided sources): an opaque secret string settable at runtime. -/
structure CloudAdapterState where
  apiKey : Option String
  deriving DecidableEq, Repr

/-- Shape of the api-key status answer from services/api.ts. -/
structure ApiKeyStatus where
  configured : Bool
  key_length : Nat
  deriving DecidableEq, Repr

/-- Modelled from the spec: setting the Cloud credential at runtime; the
returned flag and status mirror the `setApiKey` response shape of
services/api.ts. -/
def set_api_key (_st : CloudAdapterState) (key : String) :
    CloudAdapterState × Bool × ApiKeyStatus :=
  (⟨some key⟩, true, ⟨true, key.length⟩)

/-- Modelled from the spec: the status read answering whether the Cloud
adapter is configured; it is computed from the live credential slot, never
from a cached value. -/
def get_api_key_status (st : CloudAdapterState) : ApiKeyStatus :=
  ⟨st.apiKey.isSome, (st.apiKey.getD "").length⟩

/-- Modelled from the spec: the Cloud adapter precondition check on a
call: without a configured credential the call fails `NotConfigured`. -/
def cloud_missing_key (st : CloudAdapterState) : Option SynthErr :=
  if st.apiKey.isSome then none else some SynthErr.NotConfigured

/-! ## Voice recorder (embedded from components/Lab/VoiceRecorder.tsx) -/

/-- The UI phases of the recorder, from the RecordingState union type. -/
inductive RecPhase where
  | idle
  | countdown
  | recording
  | reviewing
  | uploading
  deriving DecidableEq, Repr

/-- Recorder component state: the phase, the recordingTime counter shown
in the UI and checked by the submit gate, and the seconds of audio
captured by the MediaRecorder since the recording began.  The two differ:
the interval callback first lets a second of audio accumulate and only
then inspects the counter, so the counter can understate the captured
audio by one second at the auto-stop boundary. -/
structure RecorderState where
  phase : RecPhase
  recordingTime : Nat
  elapsedSeconds : Nat
  deriving DecidableEq, Repr

/-- Events the recorder reacts to: the record button (startCountdown), the
countdown expiring (startRecording), one timer tick, the stop button
(stopRecording plus the onstop callback), the retry button
(retryRecording) and the submit button (submitRecording). -/
inductive RecEvent where
  | beginCountdown
  | countdownDone
  | timerTick
  | clickStop
  | clickRetry
  | clickSubmit
  deriving DecidableEq, Repr

/-- One step of the recorder.  The second component is the duration of a
sample submitted at this step, if any.  Faithful points: a timer tick
means one further second of audio has been captured, and the callback
then stops the recording if the previous counter value had already
reached 30 and otherwise increments the counter — so the auto-stop fires
one tick after the counter reaches 30; stopping moves to reviewing
keeping both values; the submit button carries `disabled` when
recordingTime is below 3 so a click then does nothing; submitting hands
the reviewed blob, whose duration is the captured audio, to
onRecordingComplete. -/
def recStep (st : RecorderState) : RecEvent → RecorderState × Option Nat
  | .beginCountdown =>
    if st.phase = RecPhase.idle then
      (⟨RecPhase.countdown, st.recordingTime, st.elapsedSeconds⟩, none)
    else (st, none)
  | .countdownDone =>
    if st.phase = RecPhase.countdown then (⟨RecPhase.recording, 0, 0⟩, none)
    else (st, none)
  | .timerTick =>
    if st.phase = RecPhase.recording then
      if 30 ≤ st.recordingTime then
        (⟨RecPhase.reviewing, st.recordingTime, st.elapsedSeconds + 1⟩, none)
      else
        (⟨RecPhase.recording, st.recordingTime + 1, st.elapsedSeconds + 1⟩, none)
    else (st, none)
  | .clickStop =>
    if st.phase = RecPhase.recording then
      (⟨RecPhase.reviewing, st.recordingTime, st.elapsedSeconds⟩, none)
    else (st, none)
  | .clickRetry =>
    if st.phase = RecPhase.reviewing then
      (⟨RecPhase.idle, st.recordingTime, st.elapsedSeconds⟩, none)
    else (st, none)
  | .clickSubmit =>
    if st.phase = RecPhase.reviewing ∧ 3 ≤ st.recordingTime then
      (⟨RecPhase.uploading, st.recordingTime, st.elapsedSeconds⟩,
        some st.elapsedSeconds)
    else (st, none)

/-- Initial recorder state: idle, counter 0, no audio captured. -/
def recInit : RecorderState := ⟨RecPhase.idle, 0, 0⟩

/-- Run the recorder over an event list from a given state, collecting the
durations of all submitted samples in order. -/
def recRunFrom (st : RecorderState) : List RecEvent → RecorderState × List Nat
  | [] => (st, [])
  | ev :: evs =>
    let r := recStep st ev
    let rest := recRunFrom r.1 evs
    (rest.1, (r.2.toList) ++ rest.2)

/-- Run the recorder over an event list from the initial state. -/
def recRun (evs : List RecEvent) : RecorderState × List Nat :=
  recRunFrom recInit evs

/-! ## Audio playback (embedded from components/Chat/ChatInterface.tsx and
components/Coach/CoachChat.tsx) -/

/-- One HTMLAudioElement created by `new Audio(...)`: its source and
whether it is currently playing. -/
structure AudioElem where
  src : String
  playing : Bool
  deriving DecidableEq, Repr

/-- Playback-relevant state of ChatInterface: every audio element created
so far, in creation order, and the index held by audioRef. -/
structure ChatPlayer where
  elems : List AudioElem
  current : Option Nat
  deriving DecidableEq, Repr

/-- Pause the element at a position: set its playing flag to false. -/
def pauseAt : List AudioElem → Nat → List AudioElem
  | [], _ => []
  | a :: l, 0 => ⟨a.src, false⟩ :: l
  | a :: l, n + 1 => a :: pauseAt l n

/-- The ChatInterface playAudio function: pause the element held by
audioRef if any, construct a fresh Audio element for the new payload,
store it in audioRef and start playing it. -/
def playAudio (st : ChatPlayer) (b64Audio : String) : ChatPlayer :=
  let paused := match st.current with
    | some i => pauseAt st.elems i
    | none => st.elems
  ⟨paused ++ [⟨b64Audio, true⟩], some paused.length⟩

/-- Initial player state: no audio element exists. -/
def chatPlayerInit : ChatPlayer := ⟨[], none⟩

/-- Run a sequence of playAudio calls from the initial player state. -/
def chatRun (calls : List String) : ChatPlayer :=
  calls.foldl playAudio chatPlayerInit

/-- Whether the element at a position is currently playing. -/
def playingAt : List AudioElem → Nat → Bool
  | [], _ => false
  | a :: _, 0 => a.playing
  | _ :: l, n + 1 => playingAt l n

/-- The order in which audio payloads started playing: elements are
appended in call order and each starts playing on creation. -/
def startedOrder (calls : List String) : List String :=
  (chatRun calls).elems.map AudioElem.src

/-- The CoachChat playback state: the single <audio> element rendered by
the component, holding at most one source. -/
def CoachPlayer := Option String

/-- The CoachChat playAudio function: assign src on the one audio element
and play; the assignment replaces whatever was loaded before. -/
def coachPlayAudio (_st : CoachPlayer) (audioUrl : String) : CoachPlayer :=
  some audioUrl

/-! ## Chat send path (embedded from components/Chat/ChatInterface.tsx) -/

/-- The JavaScript String.prototype.trim: drop whitespace from both ends
of the string. -/
def jsTrim (s : String) : String :=
  ⟨(((s.data.dropWhile Char.isWhitespace).reverse).dropWhile Char.isWhitespace).reverse⟩

/-- Role of a chat message. -/
inductive MsgRole where
  | user
  | assistant
  deriving DecidableEq, Repr

/-- One chat bubble. -/
structure ChatMsg where
  role : MsgRole
  content : String
  deriving DecidableEq, Repr

/-- Send-relevant state of ChatInterface: the message list, the textarea
content and the isLoading flag. -/
structure ChatState where
  messages : List ChatMsg
  input : String
  isLoading : Bool
  deriving DecidableEq, Repr

/-- The synchronous head of handleSend: return unchanged issuing no
request when the trimmed input is empty or a request is in flight;
otherwise append the user message, clear the input, raise isLoading and
issue the request.  The flag in the result records whether a request was
issued. -/
def handleSendBegin (st : ChatState) : ChatState × Bool :=
  if (jsTrim st.input).isEmpty || st.isLoading then (st, false)
  else
    (⟨st.messages ++ [⟨MsgRole.user, jsTrim st.input⟩], "", true⟩, true)

/-- The continuation of handleSend once the request settles: append the
assistant reply or the error bubble, and clear isLoading in either case. -/
def handleSendFinish (st : ChatState) (resp : Except Unit String) : ChatState :=
  match resp with
  | .ok text => ⟨st.messages ++ [⟨MsgRole.assistant, text⟩], st.input, false⟩
  | .error _ =>
    ⟨st.messages ++ [⟨MsgRole.assistant,
      "Lo siento, hubo un error al procesar tu mensaje. Por favor, intenta de nuevo."⟩],
      st.input, false⟩

/-- The chat component together with the number of requests in flight. -/
structure ChatSys where
  ui : ChatState
  outstanding : Nat
  deriving DecidableEq, Repr

/-- External events of the chat screen: typing (the textarea is disabled
while loading), clicking send, and a response settling (which can only
happen while a request is outstanding). -/
inductive ChatEvent where
  | typeInput (s : String)
  | clickSend
  | settle (resp : Except Unit String)

/-- One step of the chat system. -/
def chatSysStep (s : ChatSys) : ChatEvent → ChatSys
  | .typeInput str =>
    if s.ui.isLoading then s else ⟨⟨s.ui.messages, str, s.ui.isLoading⟩, s.outstanding⟩
  | .clickSend =>
    let r := handleSendBegin s.ui
    ⟨r.1, s.outstanding + (if r.2 then 1 else 0)⟩
  | .settle resp =>
    if s.outstanding = 0 then s
    else ⟨handleSendFinish s.ui resp, s.outstanding - 1⟩

/-- Initial chat system state: the greeting bubble, empty input, not
loading, no request outstanding. -/
def chatSysInit : ChatSys :=
  ⟨⟨[⟨MsgRole.assistant, "greeting"⟩], "", false⟩, 0⟩

/-- Run the chat system over an event list. -/
def chatSysRun (evs : List ChatEvent) : ChatSys :=
  evs.foldl chatSysStep chatSysInit

/-! ## Settings panel handlers (embedded from the VoiceSettingsPanel
variant bundled with components/Lab/VoiceRecorder.tsx) -/

/-- Response shape of the set-default endpoint in services/api.ts. -/
structure SetDefaultResponse where
  success : Bool
  default_voice_id : String
  message : String
  deriving DecidableEq, Repr

/-- Panel state relevant to voice selection. -/
structure PanelState where
  defaultVoiceId : Option String
  selectedVoiceId : String
  deriving DecidableEq, Repr

/-- The handleSetDefaultVoice handler: on a successful response update the
shown default and the selected voice; on a non-success response or a
thrown request error leave both untouched. -/
def handleSetDefaultVoice (st : PanelState)
    (resp : Except Unit SetDefaultResponse) : PanelState :=
  match resp with
  | .ok r =>
    if r.success then ⟨some r.default_voice_id, r.default_voice_id⟩ else st
  | .error _ => st

/-- API-key part of the panel state. -/
structure ApiKeyPanel where
  apiKeyStatus : Option ApiKeyStatus
  newApiKey : String
  savedOk : Bool
  deriving DecidableEq, Repr

/-- The handleSaveApiKey handler run against the modelled backend: the
guard rejects a blank or shorter-than-10 key without any call; otherwise
the key is posted, and on success the shown status becomes the returned
one and the input field is cleared. -/
def handleSaveApiKey (p : ApiKeyPanel) (backend : CloudAdapterState) :
    ApiKeyPanel × CloudAdapterState :=
  if (jsTrim p.newApiKey).isEmpty || p.newApiKey.length < 10 then (p, backend)
  else
    let r := set_api_key backend p.newApiKey
    if r.2.1 then (⟨some r.2.2, "", true⟩, r.1)
    else (p, r.1)

/-! ## Concrete fixtures and invariants used by the development -/

/-- Fixture sample of two seconds, below the hard floor. -/
def shortSample : CloneSample := ⟨2, [1, 2, 3]⟩

/-- Fixture sample of twelve seconds, above both floors. -/
def validSample : CloneSample := ⟨12, [4, 5, 6]⟩

/-- Fixture recorder trace: record for five ticks, stop, submit. -/
def recEvsFixture : List RecEvent :=
  [RecEvent.beginCountdown, RecEvent.countdownDone,
   RecEvent.timerTick, RecEvent.timerTick, RecEvent.timerTick,
   RecEvent.timerTick, RecEvent.timerTick,
   RecEvent.clickStop, RecEvent.clickSubmit]

/-- Fixture recorder trace: let the timer run until the auto-stop fires
(the thirty-first tick finds the counter at 30 and stops), then submit. -/
def recEvsMax : List RecEvent :=
  [RecEvent.beginCountdown, RecEvent.countdownDone] ++
    List.replicate 31 RecEvent.timerTick ++ [RecEvent.clickSubmit]

/-- Inductive invariant of the recorder: the counter never exceeds 30, the
captured audio is between the counter and the counter plus one second,
and while recording the two agree (the surplus second arises only at the
auto-stop). -/
def RecInv (st : RecorderState) : Prop :=
  st.recordingTime ≤ 30 ∧
  st.recordingTime ≤ st.elapsedSeconds ∧
  st.elapsedSeconds ≤ st.recordingTime + 1 ∧
  (st.phase = RecPhase.recording → st.elapsedSeconds = st.recordingTime)

/-- Only the element held by audioRef may be playing.  This is the
inductive invariant of the ChatInterface player. -/
def PlayerInv (st : ChatPlayer) : Prop :=
  ∀ j, playingAt st.elems j = true → st.current = some j

/-! ## Helper lemmas -/

theorem playingAt_nil (j : Nat) : playingAt [] j = false := by
  cases j <;> rfl

theorem playingAt_of_le (l : List AudioElem) (j : Nat) (h : l.length ≤ j) :
    playingAt l j = false := by
  induction l generalizing j with
  | nil => exact playingAt_nil j
  | cons a t ih =>
    cases j with
    | zero => simp at h
    | succ n => exact ih n (by simpa using h)

theorem playingAt_append_lt (l : List AudioElem) (a : AudioElem) (j : Nat)
    (h : j < l.length) : playingAt (l ++ [a]) j = playingAt l j := by
  induction l generalizing j with
  | nil => simp at h
  | cons b t ih =>
    cases j with
    | zero => rfl
    | succ n => exact ih n (by simpa using h)

theorem playingAt_append_len (l : List AudioElem) (a : AudioElem) :
    playingAt (l ++ [a]) l.length = a.playing := by
  induction l with
  | nil => rfl
  | cons b t ih => simpa using ih

theorem pauseAt_length (l : List AudioElem) (i : Nat) :
    (pauseAt l i).length = l.length := by
  induction l generalizing i with
  | nil => rfl
  | cons a t ih =>
    cases i with
    | zero => rfl
    | succ n => simp [pauseAt, ih n]

theorem pauseAt_map_src (l : List AudioElem) (i : Nat) :
    (pauseAt l i).map AudioElem.src = l.map AudioElem.src := by
  induction l generalizing i with
  | nil => rfl
  | cons a t ih =>
    cases i with
    | zero => rfl
    | succ n => simp [pauseAt, ih n]

theorem playingAt_pauseAt_self (l : List AudioElem) (i : Nat) :
    playingAt (pauseAt l i) i = false := by
  induction l generalizing i with
  | nil => exact playingAt_nil i
  | cons a t ih =>
    cases i with
    | zero => rfl
    | succ n => exact ih n

theorem playingAt_pauseAt_ne (l : List AudioElem) (i j : Nat) (h : j ≠ i) :
    playingAt (pauseAt l i) j = playingAt l j := by
  induction l generalizing i j with
  | nil => rfl
  | cons a t ih =>
    cases i with
    | zero =>
      cases j with
      | zero => exact absurd rfl h
      | succ m => rfl
    | succ n =>
      cases j with
      | zero => rfl
      | succ m => exact ih n m (fun hmn => h (by rw [hmn]))

theorem playAudio_elems (st : ChatPlayer) (b : String) :
    (playAudio st b).elems =
      (match st.current with
       | some i => pauseAt st.elems i
       | none => st.elems) ++ [⟨b, true⟩] := rfl

theorem playAudio_inv (st : ChatPlayer) (b : String) (h : PlayerInv st) :
    PlayerInv (playAudio st b) := by
  intro j hj
  rcases hcur : st.current with _ | i
  · have hpaused : (playAudio st b).elems = st.elems ++ [⟨b, true⟩] := by
      rw [playAudio_elems, hcur]
    have hlen : (playAudio st b).current = some st.elems.length := by
      simp [playAudio, hcur]
    rcases Nat.lt_trichotomy j st.elems.length with hlt | heq | hgt
    · rw [hpaused, playingAt_append_lt _ _ _ hlt] at hj
      have := h j hj
      rw [hcur] at this
      exact absurd this (by simp)
    · rw [hlen, heq]
    · rw [hpaused] at hj
      have : playingAt (st.elems ++ [⟨b, true⟩]) j = false := by
        apply playingAt_of_le
        simpa using hgt
      rw [this] at hj
      exact absurd hj (by simp)
  · have hpaused : (playAudio st b).elems = pauseAt st.elems i ++ [⟨b, true⟩] := by
      rw [playAudio_elems, hcur]
    have hlen : (playAudio st b).current = some (pauseAt st.elems i).length := by
      simp [playAudio, hcur]
    rcases Nat.lt_trichotomy j (pauseAt st.elems i).length with hlt | heq | hgt
    · rw [hpaused, playingAt_append_lt _ _ _ hlt] at hj
      by_cases hji : j = i
      · rw [hji, playingAt_pauseAt_self] at hj
        exact absurd hj (by simp)
      · rw [playingAt_pauseAt_ne _ _ _ hji] at hj
        have := h j hj
        rw [hcur] at this
        have : i = j := by injection this
        exact absurd this.symm hji
    · rw [hlen, heq]
    · rw [hpaused] at hj
      have : playingAt (pauseAt st.elems i ++ [⟨b, true⟩]) j = false := by
        apply playingAt_of_le
        simpa using hgt
      rw [this] at hj
      exact absurd hj (by simp)

theorem foldl_playAudio_inv (calls : List String) (st : ChatPlayer)
    (h : PlayerInv st) : PlayerInv (calls.foldl playAudio st) := by
  induction calls generalizing st with
  | nil => exact h
  | cons c cs ih => exact ih (playAudio st c) (playAudio_inv st c h)

theorem chatRun_inv (calls : List String) : PlayerInv (chatRun calls) := by
  apply foldl_playAudio_inv
  intro j hj
  rw [show chatPlayerInit.elems = [] from rfl, playingAt_nil] at hj
  exact absurd hj (by simp)

theorem foldl_playAudio_srcs (calls : List String) (st : ChatPlayer) :
    ((calls.foldl playAudio st).elems.map AudioElem.src) =
      st.elems.map AudioElem.src ++ calls := by
  induction calls generalizing st with
  | nil => simp
  | cons c cs ih =>
    rw [List.foldl_cons, ih]
    have hmap : (playAudio st c).elems.map AudioElem.src =
        st.elems.map AudioElem.src ++ [c] := by
      rw [playAudio_elems]
      rcases hcur : st.current with _ | i <;> simp [pauseAt_map_src]
    rw [hmap, List.append_assoc]
    rfl

/-! ## Claim theorems -/

/-- C1: for every synthesis request whose primary engine fails with
EngineUnavailable, NotConfigured or SynthesisError, exactly one fallback
call to the secondary engine is made (the adapter invocation trace is
precisely primary then secondary) and its result — success, or the
aggregated failure carrying both errors — is returned; the fallback is
never attempted more than once even if the secondary also fails. -/
theorem synthesis_fallback_exactly_once
    (adapter : Engine → Except SynthErr (List Nat)) (primary secondary : Engine)
    (e : SynthErr) (hp : adapter primary = .error e)
    (ht : isFallbackTrigger e = true) :
    (orchestrateSynthesis adapter primary secondary).2 = [primary, secondary] ∧
    (orchestrateSynthesis adapter primary secondary).1 =
      (match adapter secondary with
       | .ok audio => SynthOutcome.done secondary audio
       | .error e2 => SynthOutcome.synthesisFailed e e2) := by
  unfold orchestrateSynthesis
  rw [hp]
  cases h2 : adapter secondary <;> simp [ht, h2]

/-- Witness for C1: with the cloud engine unreachable and the local engine
healthy, a cloud-primary request makes exactly the two calls and returns
the local audio. -/
theorem synthesis_fallback_exactly_once_witness :
    (orchestrateSynthesis adapterCloudDown Engine.CLOUD Engine.LOCAL).2 =
      [Engine.CLOUD, Engine.LOCAL] :=
  (synthesis_fallback_exactly_once adapterCloudDown Engine.CLOUD Engine.LOCAL
    SynthErr.EngineUnavailable rfl rfl).1

/-- C7: a synthesis request that names no engine explicitly resolves to
the CLOUD engine as primary with the LOCAL engine as fallback. -/
theorem default_engine_policy_cloud_first :
    resolveEngines none = (Engine.CLOUD, Engine.LOCAL) := rfl

/-- C3 counterexample: payloads handed to playAudio in the order c1, c3,
c2 start playing in exactly that order; the player does not buffer the
out-of-order arrival and never produces the claimed order c1, c2, c3. -/
theorem playback_no_reorder_counterexample :
    startedOrder ["c1", "c3", "c2"] = ["c1", "c3", "c2"] ∧
    startedOrder ["c1", "c3", "c2"] ≠ ["c1", "c2", "c3"] := by
  refine ⟨rfl, ?_⟩
  decide

/-- C3 amended: each utterance's audio reaches the player as one complete
payload through a playAudio call, which starts playing it immediately;
payloads start playing exactly in arrival order, with no buffering,
reordering or sequence numbering. -/
theorem playback_in_arrival_order (calls : List String) :
    startedOrder calls = calls := by
  unfold startedOrder chatRun
  rw [foldl_playAudio_srcs]
  rfl

/-- C4: no two audio elements of the ChatInterface player play at the same
time — any two playing positions coincide; on each playAudio call the
element currently held by audioRef is paused before the new utterance
starts; and the CoachChat player owns a single audio element whose source
is replaced by each call. -/
theorem playback_preempts_no_overlap (calls : List String) :
    (∀ j k, playingAt (chatRun calls).elems j = true →
        playingAt (chatRun calls).elems k = true → j = k) ∧
    (∀ (st : ChatPlayer) (b : String) (i : Nat), i < st.elems.length →
        st.current = some i →
        playingAt (playAudio st b).elems i = false) ∧
    (∀ (st : CoachPlayer) (url : String), coachPlayAudio st url = some url) := by
  refine ⟨?_, ?_, fun _ _ => rfl⟩
  · intro j k hj hk
    have h1 := chatRun_inv calls j hj
    have h2 := chatRun_inv calls k hk
    rw [h1] at h2
    injection h2
  · intro st b i hi hcur
    rw [playAudio_elems, hcur]
    rw [playingAt_append_lt]
    · exact playingAt_pauseAt_self st.elems i
    · rw [pauseAt_length]
      exact hi

/-- Witness for C4: after playing payload a, a second call pauses the
first element before payload b starts. -/
theorem playback_preempts_no_overlap_witness :
    playingAt (playAudio (chatRun ["a"]) "b").elems 0 = false :=
  (playback_preempts_no_overlap ["a"]).2.1 (chatRun ["a"]) "b" 0
    (by decide) rfl

/-- C2: a cloning request whose sample is shorter than the 3-second hard
floor is rejected with SampleTooShort before either engine adapter is
invoked — the adapter trace is empty and the registry untouched — and the
recorder submit button is disabled below 3 seconds, so clicking it leaves
the recorder state unchanged and hands nothing to cloneVoice. -/
theorem clone_rejects_short_sample
    (localAdapter cloudAdapter : CloneSample → Except CloneErr String)
    (reg : Registry) (vid : String) (sample : CloneSample)
    (h : sample.durationSeconds < MIN_CLONE_SECONDS) :
    (orchestrateClone localAdapter cloudAdapter reg vid sample).1 =
      CloneCallResult.sampleTooShort ∧
    (orchestrateClone localAdapter cloudAdapter reg vid sample).2.2 = [] ∧
    (orchestrateClone localAdapter cloudAdapter reg vid sample).2.1 = reg ∧
    (∀ st : RecorderState, st.recordingTime < 3 →
        recStep st RecEvent.clickSubmit = (st, none)) := by
  have hcond : (sample.bytes.isEmpty = true ∨
      sample.durationSeconds < MIN_CLONE_SECONDS) := Or.inr h
  refine ⟨?_, ?_, ?_, ?_⟩
  · simp only [orchestrateClone, if_pos hcond]
  · simp only [orchestrateClone, if_pos hcond]
  · simp only [orchestrateClone, if_pos hcond]
  · intro st hlt
    have hng : ¬ (st.phase = RecPhase.reviewing ∧ 3 ≤ st.recordingTime) := by
      rintro ⟨_, h3⟩
      omega
    simp [recStep, hng]

/-- Witness for C2: a two-second sample is rejected outright. -/
theorem clone_rejects_short_sample_witness :
    (orchestrateClone cloneOk cloneOk regEmpty "coach_voice" shortSample).1 =
      CloneCallResult.sampleTooShort :=
  (clone_rejects_short_sample cloneOk cloneOk regEmpty "coach_voice" shortSample
    (by decide)).1

/-- C5: on a valid sample both adapter outcomes are handled independently:
if exactly one engine succeeds the call returns the success-shaped
per-engine report (it does not fail), the registry ends with one READY and
one FAILED reference, the aggregate cloneFailed arises only when both
engines failed, and both adapters are invoked in every case. -/
theorem clone_partial_success_isolated
    (localAdapter cloudAdapter : CloneSample → Except CloneErr String)
    (reg : Registry) (vid : String) (sample : CloneSample)
    (hne : sample.bytes.isEmpty = false)
    (hdur : MIN_CLONE_SECONDS ≤ sample.durationSeconds) :
    (∀ h e, localAdapter sample = .ok h → cloudAdapter sample = .error e →
      (orchestrateClone localAdapter cloudAdapter reg vid sample).1 =
        CloneCallResult.report (.ok h) (.error e) ∧
      ((orchestrateClone localAdapter cloudAdapter reg vid sample).2.1).get_reference
          vid Engine.LOCAL = some ⟨some h, RefStatus.READY, none⟩ ∧
      ((orchestrateClone localAdapter cloudAdapter reg vid sample).2.1).get_reference
          vid Engine.CLOUD = some ⟨none, RefStatus.FAILED, some e⟩) ∧
    (∀ h e, localAdapter sample = .error e → cloudAdapter sample = .ok h →
      (orchestrateClone localAdapter cloudAdapter reg vid sample).1 =
        CloneCallResult.report (.error e) (.ok h) ∧
      ((orchestrateClone localAdapter cloudAdapter reg vid sample).2.1).get_reference
          vid Engine.LOCAL = some ⟨none, RefStatus.FAILED, some e⟩ ∧
      ((orchestrateClone localAdapter cloudAdapter reg vid sample).2.1).get_reference
          vid Engine.CLOUD = some ⟨some h, RefStatus.READY, none⟩) ∧
    (∀ le ce, (orchestrateClone localAdapter cloudAdapter reg vid sample).1 =
        CloneCallResult.cloneFailed le ce →
      localAdapter sample = .error le ∧ cloudAdapter sample = .error ce) ∧
    (orchestrateClone localAdapter cloudAdapter reg vid sample).2.2 =
      [Engine.LOCAL, Engine.CLOUD] := by
  have hb : sample.bytes ≠ [] := by
    intro hb
    rw [hb] at hne
    exact absurd hne (by simp)
  have hd : ¬ sample.durationSeconds < MIN_CLONE_SECONDS := by omega
  refine ⟨?_, ?_, ?_, ?_⟩
  · intro h e hl hc
    refine ⟨?_, ?_, ?_⟩ <;>
      simp [orchestrateClone, hb, hd, hl, hc, Registry.get_reference,
        Registry.upsert_reference, Registry.mark_failed]
  · intro h e hl hc
    refine ⟨?_, ?_, ?_⟩ <;>
      simp [orchestrateClone, hb, hd, hl, hc, Registry.get_reference,
        Registry.upsert_reference, Registry.mark_failed]
  · intro le ce hres
    cases hl : localAdapter sample with
    | ok h1 =>
      cases hc : cloudAdapter sample with
      | ok h2 => simp [orchestrateClone, hb, hd, hl, hc] at hres
      | error e2 => simp [orchestrateClone, hb, hd, hl, hc] at hres
    | error e1 =>
      cases hc : cloudAdapter sample with
      | ok h2 => simp [orchestrateClone, hb, hd, hl, hc] at hres
      | error e2 =>
        simp [orchestrateClone, hb, hd, hl, hc] at hres
        obtain ⟨h1, h2⟩ := hres
        rw [h1, h2]
        exact ⟨rfl, rfl⟩
  · cases hl : localAdapter sample <;> cases hc : cloudAdapter sample <;>
      simp [orchestrateClone, hb, hd, hl, hc]

/-- Witness for C5: local clone succeeds while the cloud engine is down;
the call returns the success-shaped report. -/
theorem clone_partial_success_isolated_witness :
    (orchestrateClone cloneOk cloneDown regEmpty "coach_voice" validSample).1 =
      CloneCallResult.report (.ok "handle-1") (.error CloneErr.EngineUnavailable) :=
  ((clone_partial_success_isolated cloneOk cloneDown regEmpty "coach_voice"
    validSample rfl (by decide)).1 "handle-1" CloneErr.EngineUnavailable
    rfl rfl).1

/-- C6: a set-default request naming an identity that does not exist fails
with UnknownVoice and leaves the registry — in particular the
DefaultVoicePointer — unchanged; and the settings panel moves its shown
default voice only on a response that reports success. -/
theorem set_default_unknown_voice
    (r : Registry) (vid : String) (st : PanelState)
    (h : r.voiceIdentityExists vid = false) :
    r.set_default vid = Except.error RegErr.UnknownVoice ∧
    applySetDefault r vid = r ∧
    (∀ resp, handleSetDefaultVoice st resp ≠ st →
      ∃ rr, resp = Except.ok rr ∧ rr.success = true) := by
  have h1 : r.set_default vid = Except.error RegErr.UnknownVoice := by
    simp [Registry.set_default, h]
  refine ⟨h1, ?_, ?_⟩
  · unfold applySetDefault
    rw [h1]
  · intro resp hne
    cases resp with
    | error e => exact absurd rfl hne
    | ok rr =>
      by_cases hs : rr.success = true
      · exact ⟨rr, rfl, hs⟩
      · exfalso
        apply hne
        simp [handleSetDefaultVoice, hs]

/-- Witness for C6: setting the default to an identity the empty registry
does not hold fails with UnknownVoice. -/
theorem set_default_unknown_voice_witness :
    regEmpty.set_default "ghost" = Except.error RegErr.UnknownVoice :=
  (set_default_unknown_voice regEmpty "ghost" ⟨none, "coach_voice"⟩ rfl).1

/-- C8: a status read performed right after a successful credential
configuration observes the cloud engine as configured and a cloud call no
longer fails NotConfigured — a stale not-configured answer is never kept
past a successful configuration; and the settings panel, saving a key that
passes its gate, immediately shows the configured status returned by the
call. -/
theorem api_key_configured_immediately
    (backend : CloudAdapterState) (p : ApiKeyPanel)
    (hne : (jsTrim p.newApiKey).isEmpty = false)
    (hlen : 10 ≤ p.newApiKey.length) :
    (∀ (st : CloudAdapterState) (key : String),
        (get_api_key_status (set_api_key st key).1).configured = true) ∧
    (∀ (st : CloudAdapterState) (key : String),
        cloud_missing_key (set_api_key st key).1 = none) ∧
    (handleSaveApiKey p backend).1.apiKeyStatus =
      some ⟨true, p.newApiKey.length⟩ ∧
    (handleSaveApiKey p backend).2.apiKey = some p.newApiKey := by
  have h10 : ¬ p.newApiKey.length < 10 := by omega
  refine ⟨fun st key => rfl, fun st key => rfl, ?_, ?_⟩
  · simp [handleSaveApiKey, set_api_key, hne, h10]
  · simp [handleSaveApiKey, set_api_key, hne, h10]

/-- Witness for C8: saving a ten-character key shows the configured
status at once. -/
theorem api_key_configured_immediately_witness :
    (handleSaveApiKey ⟨none, "abcdefghij", false⟩ ⟨none⟩).1.apiKeyStatus =
      some ⟨true, ("abcdefghij" : String).length⟩ :=
  (api_key_configured_immediately ⟨none⟩ ⟨none, "abcdefghij", false⟩
    (by decide) (by decide)).2.2.1

theorem recStep_inv (st : RecorderState) (ev : RecEvent)
    (h : RecInv st) :
    RecInv (recStep st ev).1 ∧
    (∀ d, (recStep st ev).2 = some d → 3 ≤ d ∧ d ≤ 31) := by
  obtain ⟨h30, hle, hle1, hrec⟩ := h
  cases ev with
  | beginCountdown =>
    by_cases hp : st.phase = RecPhase.idle
    · simp only [recStep, if_pos hp]
      exact ⟨⟨h30, hle, hle1, fun hh => nomatch hh⟩,
        fun d hd => absurd hd (by simp)⟩
    · simp only [recStep, if_neg hp]
      exact ⟨⟨h30, hle, hle1, hrec⟩, fun d hd => absurd hd (by simp)⟩
  | countdownDone =>
    by_cases hp : st.phase = RecPhase.countdown
    · simp only [recStep, if_pos hp]
      refine ⟨⟨?_, ?_, ?_, fun _ => rfl⟩, fun d hd => absurd hd (by simp)⟩
      · show (0 : Nat) ≤ 30
        omega
      · show (0 : Nat) ≤ 0
        omega
      · show (0 : Nat) ≤ 0 + 1
        omega
    · simp only [recStep, if_neg hp]
      exact ⟨⟨h30, hle, hle1, hrec⟩, fun d hd => absurd hd (by simp)⟩
  | timerTick =>
    by_cases hp : st.phase = RecPhase.recording
    · have heq := hrec hp
      by_cases hcap : 30 ≤ st.recordingTime
      · simp only [recStep, if_pos hp, if_pos hcap]
        refine ⟨⟨?_, ?_, ?_, fun hh => nomatch hh⟩,
          fun d hd => absurd hd (by simp)⟩
        · show st.recordingTime ≤ 30
          omega
        · show st.recordingTime ≤ st.elapsedSeconds + 1
          omega
        · show st.elapsedSeconds + 1 ≤ st.recordingTime + 1
          omega
      · simp only [recStep, if_pos hp, if_neg hcap]
        refine ⟨⟨?_, ?_, ?_, fun _ => ?_⟩,
          fun d hd => absurd hd (by simp)⟩
        · show st.recordingTime + 1 ≤ 30
          omega
        · show st.recordingTime + 1 ≤ st.elapsedSeconds + 1
          omega
        · show st.elapsedSeconds + 1 ≤ st.recordingTime + 1 + 1
          omega
        · show st.elapsedSeconds + 1 = st.recordingTime + 1
          omega
    · simp only [recStep, if_neg hp]
      exact ⟨⟨h30, hle, hle1, hrec⟩, fun d hd => absurd hd (by simp)⟩
  | clickStop =>
    by_cases hp : st.phase = RecPhase.recording
    · simp only [recStep, if_pos hp]
      exact ⟨⟨h30, hle, hle1, fun hh => nomatch hh⟩,
        fun d hd => absurd hd (by simp)⟩
    · simp only [recStep, if_neg hp]
      exact ⟨⟨h30, hle, hle1, hrec⟩, fun d hd => absurd hd (by simp)⟩
  | clickRetry =>
    by_cases hp : st.phase = RecPhase.reviewing
    · simp only [recStep, if_pos hp]
      exact ⟨⟨h30, hle, hle1, fun hh => nomatch hh⟩,
        fun d hd => absurd hd (by simp)⟩
    · simp only [recStep, if_neg hp]
      exact ⟨⟨h30, hle, hle1, hrec⟩, fun d hd => absurd hd (by simp)⟩
  | clickSubmit =>
    by_cases hp : st.phase = RecPhase.reviewing ∧ 3 ≤ st.recordingTime
    · simp only [recStep, if_pos hp]
      refine ⟨⟨h30, hle, hle1, fun hh => nomatch hh⟩, ?_⟩
      intro d hd
      have hde : st.elapsedSeconds = d := by injection hd
      obtain ⟨_, h3⟩ := hp
      omega
    · simp only [recStep, if_neg hp]
      exact ⟨⟨h30, hle, hle1, hrec⟩, fun d hd => absurd hd (by simp)⟩

theorem recRunFrom_inv (evs : List RecEvent) (st : RecorderState)
    (h : RecInv st) :
    RecInv (recRunFrom st evs).1 ∧
    ∀ d ∈ (recRunFrom st evs).2, 3 ≤ d ∧ d ≤ 31 := by
  induction evs generalizing st with
  | nil => exact ⟨h, by simp [recRunFrom]⟩
  | cons ev evs ih =>
    have hstep := recStep_inv st ev h
    have hrest := ih (recStep st ev).1 hstep.1
    refine ⟨by simpa [recRunFrom] using hrest.1, ?_⟩
    intro d hd
    simp only [recRunFrom, List.mem_append] at hd
    rcases hd with hd1 | hd2
    · apply hstep.2 d
      cases ho : (recStep st ev).2 with
      | none => rw [ho] at hd1; simp [Option.toList] at hd1
      | some x =>
        rw [ho] at hd1
        simp [Option.toList] at hd1
        rw [hd1]
    · exact hrest.2 d hd2

/-- C9 counterexample: letting the timer run, the auto-stop fires only on
the tick after the counter reaches 30, so the maximal recording captures
31 seconds of audio and submitting it hands a 31-second sample to
cloneVoice — refuting the claim that every recording lasts at most 30
seconds and every submitted sample at most 30. -/
theorem recorder_exceeds_30_counterexample :
    (recRun recEvsMax).2 = [31] ∧
    ¬ (∀ d ∈ (recRun recEvsMax).2, d ≤ 30) := by
  constructor
  · decide
  · intro hall
    exact absurd (hall 31 (by decide)) (by omega)

/-- C9 amended: the recording timer auto-stops on the first tick after the
counter reaches 30, so along every event sequence the counter never
exceeds 30 while the captured audio never exceeds 31 seconds, and
together with the 3-second submit gate every sample handed to cloneVoice
by the recorder has a duration between 3 and 31 seconds. -/
theorem recorder_duration_bounds_amended (evs : List RecEvent) :
    (recRun evs).1.recordingTime ≤ 30 ∧
    (recRun evs).1.elapsedSeconds ≤ 31 ∧
    (∀ d ∈ (recRun evs).2, 3 ≤ d ∧ d ≤ 31) ∧
    (∀ st : RecorderState, st.phase = RecPhase.recording →
      30 ≤ st.recordingTime →
      (recStep st RecEvent.timerTick).1.phase = RecPhase.reviewing) := by
  have hinit : RecInv recInit :=
    ⟨by decide, by decide, by decide, fun hh => nomatch hh⟩
  have hrun := recRunFrom_inv evs recInit hinit
  refine ⟨hrun.1.1, ?_, hrun.2, ?_⟩
  · obtain ⟨h30, _, hle1, _⟩ := hrun.1
    show (recRunFrom recInit evs).1.elapsedSeconds ≤ 31
    omega
  · intro st hp h30
    simp [recStep, hp, h30]

/-- Witness for C9 amended: recording for five seconds then stopping and
submitting yields a submitted duration of 5, within the bounds. -/
theorem recorder_duration_bounds_amended_witness :
    3 ≤ 5 ∧ 5 ≤ 31 :=
  (recorder_duration_bounds_amended recEvsFixture).2.2.1 5 (by decide)

theorem chatSysStep_inv (s : ChatSys) (ev : ChatEvent)
    (h : s.outstanding = if s.ui.isLoading then 1 else 0) :
    (chatSysStep s ev).outstanding =
      if (chatSysStep s ev).ui.isLoading then 1 else 0 := by
  cases ev with
  | typeInput str =>
    by_cases hl : s.ui.isLoading <;> simp [chatSysStep, hl] <;>
      simpa [hl] using h
  | clickSend =>
    by_cases hg : ((jsTrim s.ui.input).isEmpty || s.ui.isLoading) = true
    · simp only [chatSysStep, handleSendBegin, if_pos hg]
      simpa using h
    · have hload : s.ui.isLoading = false := by
        cases hl : s.ui.isLoading
        · rfl
        · exact absurd (by rw [hl]; simp) hg
      have h0 : s.outstanding = 0 := by
        rw [h, hload]
        rfl
      simp [chatSysStep, handleSendBegin, hg, h0]
  | settle resp =>
    by_cases h0 : s.outstanding = 0
    · simpa [chatSysStep, h0] using h
    · have hload : s.ui.isLoading = true := by
        by_contra hc
        rw [Bool.not_eq_true] at hc
        rw [h, hc] at h0
        exact h0 rfl
      have h1 : s.outstanding = 1 := by rw [h, hload]; rfl
      cases resp <;> simp [chatSysStep, h0, handleSendFinish, h1]

theorem chatSysRun_inv (evs : List ChatEvent) :
    (chatSysRun evs).outstanding =
      if (chatSysRun evs).ui.isLoading then 1 else 0 := by
  have hgen : ∀ (s : ChatSys),
      s.outstanding = (if s.ui.isLoading then 1 else 0) →
      (evs.foldl chatSysStep s).outstanding =
        if (evs.foldl chatSysStep s).ui.isLoading then 1 else 0 := by
    induction evs with
    | nil => intro s hs; exact hs
    | cons ev evs ih => intro s hs; exact ih _ (chatSysStep_inv s ev hs)
  exact hgen chatSysInit rfl

/-- C10: clicking send with a whitespace-only input or while a request is
in flight changes nothing and issues no request; a request is issued only
from a nonempty trimmed input, so an empty message is never sent; and
along every event sequence at most one chat request is outstanding. -/
theorem chat_send_guard (st : ChatState)
    (h : (jsTrim st.input).isEmpty = true ∨ st.isLoading = true) :
    handleSendBegin st = (st, false) ∧
    (∀ st2 : ChatState, (handleSendBegin st2).2 = true →
        (jsTrim st2.input).isEmpty = false) ∧
    (∀ evs : List ChatEvent, (chatSysRun evs).outstanding ≤ 1) := by
  refine ⟨?_, ?_, ?_⟩
  · rcases h with h | h <;> simp [handleSendBegin, h]
  · intro st2 h2
    by_cases he : (jsTrim st2.input).isEmpty = true
    · rw [handleSendBegin] at h2
      simp [he] at h2
    · simpa using he
  · intro evs
    rw [chatSysRun_inv evs]
    split <;> omega

/-- Witness for C10: with whitespace-only input and no request in flight,
send is a no-op. -/
theorem chat_send_guard_witness :
    handleSendBegin ⟨[], "   ", false⟩ = (⟨[], "   ", false⟩, false) :=
  (chat_send_guard ⟨[], "   ", false⟩ (Or.inl (by decide))).1

end Sublab
